import Mathlib

/-!
Verification of the PanelSplit period-aware cross-validation splitter
(src/panelsplit/panelsplit.py) against its natural-language specification.

The Python class is shallowly embedded: pandas Series become Lean lists,
boolean row masks become `List Bool`, and every fallible operation returns
`Except PyErr`.  The module's import list (panelsplit.py lines 1 to 6) binds
`TimeSeriesSplit`, `tqdm`, `pd`, `plt`, `Parallel`, `delayed` and `np` only;
the names `warnings` (used at line 31) and `clone` (used at line 249) are
unbound there, so under Python semantics those statements raise `NameError`.
The embedding reproduces that behaviour.
-/

/-- Python exceptions that the embedded code can raise, tagged with the
message the source (or the Python runtime) produces. -/
inductive PyErr where
  | valueError (msg : String)
  | nameError (msg : String)
  | attributeError (msg : String)
  | indexError (msg : String)
deriving DecidableEq, Repr

/-- A row-level boolean mask (one entry per row of the dataset), as produced
by `self.all_periods.isin(...).values` at panelsplit.py lines 68 to 69. -/
abbrev Mask := List Bool

/-- A row-level fold: the pair `(train_indices, test_indices)` appended to
`self.all_indices` at panelsplit.py line 78. -/
abbrev Fold := Mask × Mask

/-- Number of rows a mask selects (its count of `true` entries).  The spec
(section 4.4) calls a side "empty" when this is zero. -/
def trueCount (m : Mask) : Nat := (m.filter id).length

/-- Rows of `l` selected by a boolean mask of equal length, in order: the
embedding of `frame.loc[mask]` for a row-aligned boolean mask. -/
def maskSel {α : Type} (l : List α) (m : Mask) : List α :=
  (m.zip l).filterMap (fun p => if p.1 then some p.2 else none)

/-- Embedding of `pandas.Series.unique()` (panelsplit.py line 24): the
distinct values of the column in order of first appearance (each value is
kept at its first position and its later repetitions are filtered out). -/
def pdUnique {α : Type} [DecidableEq α] : List α → List α
  | [] => []
  | a :: l => a :: (pdUnique l).filter (fun b => b ≠ a)

/-- Embedding of `pandas.Series.sort_values()` on the deduplicated column
(panelsplit.py line 24): sort ascending. -/
def sortValues {α : Type} [LinearOrder α] (l : List α) : List α :=
  List.insertionSort (· ≤ ·) l

/-- The unique-period sequence the constructor computes when no explicit
override is supplied: `pd.Series(train_periods.unique()).sort_values()`
(panelsplit.py lines 23 to 24). -/
def computeUniquePeriods {α : Type} [LinearOrder α] (l : List α) : List α :=
  sortValues (pdUnique l)

/-- Modelled from the spec: "the sorted distinct values of the input period
column" (spec section 8, property 1), stated independently of the source's
first-occurrence deduplication order. -/
def specSortedDistinct {α : Type} [LinearOrder α] (l : List α) : List α :=
  List.insertionSort (· ≤ ·) l.dedup

theorem mem_pdUnique {α : Type} [DecidableEq α] (l : List α) :
    ∀ a, a ∈ pdUnique l ↔ a ∈ l := by
  induction l with
  | nil => intro a; simp [pdUnique]
  | cons b t ih =>
    intro a
    rw [pdUnique, List.mem_cons, List.mem_cons, List.mem_filter, ih]
    by_cases hab : a = b
    · simp [hab]
    · simp [hab]

theorem nodup_pdUnique {α : Type} [DecidableEq α] (l : List α) :
    (pdUnique l).Nodup := by
  induction l with
  | nil => simp [pdUnique]
  | cons b t ih =>
    rw [pdUnique]
    refine List.nodup_cons.mpr ⟨?_, ih.filter _⟩
    intro hmem
    rw [List.mem_filter] at hmem
    simp at hmem

/-- C4: with no explicit unique-period override, the unique-period sequence
computed by the constructor (panelsplit.py lines 23 to 24) is strictly sorted
ascending (hence duplicate-free) and equals the sorted distinct values of the
input period column: it has exactly the input's members and coincides with
the independently specified sorted-distinct sequence. -/
theorem C4_unique_periods_sorted_distinct {α : Type} [LinearOrder α] (l : List α) :
    (computeUniquePeriods l).Sorted (· < ·) ∧
    (∀ a, a ∈ computeUniquePeriods l ↔ a ∈ l) ∧
    computeUniquePeriods l = specSortedDistinct l := by
  have hperm : List.Perm (computeUniquePeriods l) (pdUnique l) :=
    List.perm_insertionSort (· ≤ ·) (pdUnique l)
  have hnd : (computeUniquePeriods l).Nodup :=
    hperm.nodup_iff.mpr (nodup_pdUnique l)
  have hsle : (computeUniquePeriods l).Sorted (· ≤ ·) :=
    List.sorted_insertionSort (· ≤ ·) (pdUnique l)
  have hmem : ∀ a, a ∈ computeUniquePeriods l ↔ a ∈ l := by
    intro a
    rw [hperm.mem_iff, mem_pdUnique l a]
  refine ⟨hsle.lt_of_le hnd, hmem, ?_⟩
  have hperm2 : List.Perm (pdUnique l) l.dedup := by
    rw [List.perm_ext_iff_of_nodup (nodup_pdUnique l) l.nodup_dedup]
    intro a
    rw [mem_pdUnique l a, List.mem_dedup]
  have hperm3 : List.Perm (computeUniquePeriods l) (specSortedDistinct l) :=
    (hperm.trans hperm2).trans (List.perm_insertionSort (· ≤ ·) l.dedup).symm
  exact List.eq_of_perm_of_sorted hperm3 hsle
    (List.sorted_insertionSort (· ≤ ·) l.dedup)

/-- Number of distinct non-missing values: the embedding of
`pandas.Series.nunique()` (missing labels are excluded, matching the default
`dropna=True`). -/
def nunique {L : Type} [DecidableEq L] (vals : List (Option L)) : Nat :=
  (vals.filterMap id).dedup.length

/-- The fold-validity condition of panelsplit.py line 71, with Python's
short-circuit evaluation order:
`self.drop_folds and ((len(train_indices) == 0 or len(test_indices) == 0) or
(y.loc[train_indices].nunique() == 1 or y.loc[test_indices].nunique() == 1))`.
The length tests are on the mask arrays themselves (the row count), not on
the number of selected rows.  When the length tests are both false and `y`
is `None`, evaluating `y.loc` raises `AttributeError`; a row-misaligned
label series raises `IndexError` from boolean indexing. -/
def foldDropCond {L : Type} [DecidableEq L] (drop_folds : Bool)
    (y : Option (List (Option L))) (train_indices test_indices : Mask) :
    Except PyErr Bool :=
  if drop_folds = false then .ok false
  else if train_indices.length = 0 ∨ test_indices.length = 0 then .ok true
  else
    match y with
    | none => .error (.attributeError "NoneType object has no attribute loc")
    | some ys =>
      if ys.length ≠ train_indices.length then
        .error (.indexError "Boolean index has wrong length")
      else if nunique (maskSel ys train_indices) = 1 then .ok true
      else if ys.length ≠ test_indices.length then
        .error (.indexError "Boolean index has wrong length")
      else .ok (nunique (maskSel ys test_indices) == 1)

/-- Lines 68 to 69 of panelsplit.py: project one period-level fold onto the
row dataset by membership test,
`self.all_periods.isin(train_periods).values` and likewise for the test
side. -/
def rowMasks {P : Type} [DecidableEq P] (all_periods : List P)
    (fold : List P × List P) : Fold :=
  (all_periods.map (fun p => decide (p ∈ fold.1)),
   all_periods.map (fun p => decide (p ∈ fold.2)))

/-- The fold loop of `PanelSplit.split` (panelsplit.py lines 65 to 78):
iterate `self.u_periods_cv` in order, project each period-level fold to row
masks, evaluate the validity condition, and either count the fold (the
`init`-time decrement / the later-call `continue` skip) or append its mask
pair.  Returns the number of condition-true folds together with the
appended mask pairs. -/
def splitLoop {P L : Type} [DecidableEq P] [DecidableEq L] (drop_folds : Bool)
    (all_periods : List P) (y : Option (List (Option L))) :
    List (List P × List P) → Except PyErr (Nat × List Fold)
  | [] => .ok (0, [])
  | f :: rest =>
    match foldDropCond drop_folds y (rowMasks all_periods f).1 (rowMasks all_periods f).2 with
    | .error e => .error e
    | .ok c =>
      match splitLoop drop_folds all_periods y rest with
      | .error e => .error e
      | .ok (d, fs) =>
        if c then .ok (d + 1, fs)
        else .ok (d, rowMasks all_periods f :: fs)

/-- The state of a constructed `PanelSplit` object: the period-level fold
list `u_periods_cv` (line 27), the stored row-period column `all_periods`
(line 28), the `drop_folds` flag (line 36), the reported split count
`n_splits` (line 38, decremented during the construction-time split), and
the row-level fold list `all_indices` (line 65 and line 78).  The label
series supplied at construction is NOT stored on the object. -/
structure PanelSplit (P : Type) where
  u_periods_cv : List (List P × List P)
  all_periods : List P
  drop_folds : Bool
  n_splits : Nat
  all_indices : List Fold
deriving DecidableEq

/-- Embedding of `PanelSplit.split` (panelsplit.py lines 61 to 80).  The
parameters `X` and `groups` are accepted and never read, exactly as in the
source; `y` defaults to `None` at every call site that omits it.  The
method rebuilds `self.all_indices` from the immutable period-level folds
and, when `init` is true, decrements `self.n_splits` once per dropped
fold. -/
def PanelSplit.split {P L ξ γ : Type} [DecidableEq P] [DecidableEq L]
    (self : PanelSplit P) (X : Option ξ) (y : Option (List (Option L)))
    (groups : Option γ) (init : Bool) :
    Except PyErr (PanelSplit P × List Fold) :=
  match splitLoop self.drop_folds self.all_periods y self.u_periods_cv with
  | .error e => .error e
  | .ok (d, fs) =>
    .ok ({ self with
            all_indices := fs
            n_splits := if init then self.n_splits - d else self.n_splits }, fs)

/-- Embedding of `PanelSplit.get_n_splits` (panelsplit.py lines 82 to 86):
returns `self.n_splits`; all three parameters are ignored. -/
def PanelSplit.get_n_splits {P A B C : Type} (self : PanelSplit P)
    (X : Option A) (y : Option B) (groups : Option C) : Nat :=
  self.n_splits

/-- Modelled from the spec (section 4.2): one fold of the external interval
selector.  Fold `i` tests `test_size` positions starting at
`n_samples - (n_splits - i) * test_size` and trains on the prefix ending
`gap` positions earlier (bounded by `max_train_size` when that is set and
nonzero, matching the selector's truthiness test on it). -/
def tssFoldIndices (n_samples n_splits gap test_size : Nat)
    (max_train_size : Option Nat) (i : Nat) : List Nat × List Nat :=
  let test_start := n_samples - n_splits * test_size + i * test_size
  let train_end := test_start - gap
  let train_start :=
    match max_train_size with
    | some m => if m ≠ 0 ∧ m < train_end then train_end - m else 0
    | none => 0
  (List.range' train_start (train_end - train_start),
   List.range' test_start test_size)

/-- Modelled from the spec (section 4.2): the external interval selector
`sklearn.model_selection.TimeSeriesSplit.split`, the out-of-scope
capability consumed at panelsplit.py lines 25 to 27.  Expanding-origin
folds over `n_samples` ordered items; `test_size` defaults to
`n_samples // (n_splits + 1)`.  Validation errors reproduce the selector's
contract: more folds than samples, a window budget that does not fit, or a
zero step. -/
def tssSplitIndices (n_samples n_splits gap : Nat)
    (test_size_opt max_train_size : Option Nat) :
    Except PyErr (List (List Nat × List Nat)) :=
  if n_splits + 1 > n_samples then
    .error (.valueError "Cannot have number of folds greater than the number of samples")
  else if n_samples ≤ gap + (test_size_opt.getD (n_samples / (n_splits + 1))) * n_splits then
    .error (.valueError "Too many splits for the number of samples with test_size and gap")
  else if test_size_opt.getD (n_samples / (n_splits + 1)) = 0 then
    .error (.valueError "range() arg 3 must not be zero")
  else
    .ok ((List.range n_splits).map
      (tssFoldIndices n_samples n_splits gap
        (test_size_opt.getD (n_samples / (n_splits + 1))) max_train_size))

/-- Embedding of `PanelSplit.split_unique_periods` (panelsplit.py lines 44
to 59): map each pair of position lists to the corresponding period values
by positional lookup (`iloc`).  The selector's contract keeps every
position in range, so the positional lookup never misses. -/
def split_unique_periods {P : Type} (indices : List (List Nat × List Nat))
    (unique_periods : List P) : List (List P × List P) :=
  indices.map (fun p =>
    (p.1.filterMap (fun i => unique_periods.get? i),
     p.2.filterMap (fun i => unique_periods.get? i)))

/-- The constructor arguments of `PanelSplit.__init__` (panelsplit.py
line 9).  `plot` is omitted: visualization has no algorithmic role (spec
section 2).  `gap` is a natural number per the interval selector's
contract.  Labels are per-row, `none` marking a missing (NaN) entry. -/
structure Config (P L : Type) where
  train_periods : List P
  unique_periods : Option (List P)
  n_splits : Nat
  gap : Nat
  test_size : Option Nat
  max_train_size : Option Nat
  drop_folds : Bool
  y : Option (List (Option L))

/-- Lines 23 to 24 of panelsplit.py: `if unique_periods == None:`.  With the
default `None` the test is true and the sorted deduplicated column is
computed.  With a pandas Series or DataFrame override (the documented
argument type), `==` compares elementwise and the `if` then asks for the
truth value of a Series, which always raises `ValueError` in pandas, so any
supplied override aborts construction. -/
def uniqueStage {P L : Type} [LinearOrder P] (cfg : Config P L) :
    Except PyErr (List P) :=
  match cfg.unique_periods with
  | none => .ok (computeUniquePeriods cfg.train_periods)
  | some _ => .error (.valueError "The truth value of a Series is ambiguous. Use a.empty, a.bool(), a.item(), a.any() or a.all().")

/-- Lines 23 to 27 of panelsplit.py: resolve the unique-period sequence,
construct the `TimeSeriesSplit` (which validates `n_splits` at least 2),
and materialize its period-level folds via `split_unique_periods`. -/
def foldsStage {P L : Type} [LinearOrder P] (cfg : Config P L) :
    Except PyErr (List (List P × List P)) :=
  match uniqueStage cfg with
  | .error e => .error e
  | .ok uniq =>
    if cfg.n_splits ≤ 1 then
      .error (.valueError "k-fold cross-validation requires at least one train/test split by setting n_splits=2 or more")
    else
      match tssSplitIndices uniq.length cfg.n_splits cfg.gap
        cfg.test_size cfg.max_train_size with
      | .error e => .error e
      | .ok idx => .ok (split_unique_periods idx uniq)

/-- Embedding of `PanelSplit.__init__` (panelsplit.py lines 9 to 42).
After the fold computation: supplying `y` with `drop_folds=False` executes
`warnings.warn(...)` (line 31), but the module never imports `warnings`
(imports are lines 1 to 6), so that path raises
`NameError: name warnings is not defined`; `drop_folds=True` without `y`
raises the explicit `ValueError` of line 34.  Otherwise the object is
assembled and `self.split(y=y, init=True)` performs the construction-time
pruning pass. -/
def PanelSplit.init {P L : Type} [LinearOrder P] [DecidableEq L]
    (cfg : Config P L) : Except PyErr (PanelSplit P) :=
  match foldsStage cfg with
  | .error e => .error e
  | .ok uCv =>
    if cfg.y.isSome ∧ cfg.drop_folds = false then
      .error (.nameError "name warnings is not defined")
    else if cfg.y.isNone ∧ cfg.drop_folds = true then
      .error (.valueError "Cannot drop folds without specifying y values.")
    else
      match PanelSplit.split
          (⟨uCv, cfg.train_periods, cfg.drop_folds, cfg.n_splits, []⟩ : PanelSplit P)
          (none : Option Unit) cfg.y (none : Option Unit) true with
      | .error e => .error e
      | .ok res => .ok res.1

/-- Number of folds the construction-time pass drops: the first component
of the `splitLoop` run that `PanelSplit.init` performs. -/
def constructionDrops {P L : Type} [DecidableEq P] [DecidableEq L]
    (drop_folds : Bool) (all_periods : List P) (y : Option (List (Option L)))
    (folds : List (List P × List P)) : Except PyErr Nat :=
  (splitLoop drop_folds all_periods y folds).map Prod.fst

/-- A construction call that supplies an explicit unique-period override
(panelsplit.py docstring line 15 documents the parameter as a pandas
DataFrame or Series). -/
def cfgC5 : Config ℤ ℤ :=
  { train_periods := [1, 2, 3, 4, 5, 6], unique_periods := some [1, 2, 3],
    n_splits := 2, gap := 0, test_size := none, max_train_size := none,
    drop_folds := false, y := none }

/-- C5: the claim says a supplied unique-period sequence is used verbatim
and construction succeeds.  In the code, line 23 evaluates
`unique_periods == None`, an elementwise pandas comparison whose Series
result has no truth value, so every construction call that supplies an
override raises `ValueError` instead of succeeding. -/
theorem C5_override_always_raises {P L : Type} [LinearOrder P] [DecidableEq L]
    (cfg : Config P L) (s : List P) (h : cfg.unique_periods = some s) :
    PanelSplit.init cfg = Except.error (.valueError
      "The truth value of a Series is ambiguous. Use a.empty, a.bool(), a.item(), a.any() or a.all().") := by
  simp [PanelSplit.init, foldsStage, uniqueStage, h]

/-- Witness for C5 at a concrete override. -/
theorem C5_override_always_raises_witness :
    PanelSplit.init cfgC5 = Except.error (.valueError
      "The truth value of a Series is ambiguous. Use a.empty, a.bool(), a.item(), a.any() or a.all().") :=
  C5_override_always_raises cfgC5 [1, 2, 3] rfl

/-- A construction call that supplies labels while `drop_folds` is
disabled. -/
def cfgC6 : Config ℤ ℤ :=
  { train_periods := [1, 2, 3, 4, 5, 6], unique_periods := none,
    n_splits := 2, gap := 0, test_size := none, max_train_size := none,
    drop_folds := false,
    y := some [some 0, some 1, some 0, some 1, some 0, some 1] }

/-- C6: the claim says labels with `drop_folds=False` yield a non-fatal
warning and a usable object.  In the code the warning branch at line 31
calls `warnings.warn`, but the module never imports `warnings` (imports
are lines 1 to 6), so once the fold computation has succeeded the
construction raises `NameError` and no object is produced. -/
theorem C6_labels_without_drop_folds_raises {P L : Type} [LinearOrder P]
    [DecidableEq L] (cfg : Config P L) (ys : List (Option L)) (uCv : List (List P × List P))
    (h1 : cfg.y = some ys) (h2 : cfg.drop_folds = false)
    (h3 : foldsStage cfg = Except.ok uCv) :
    PanelSplit.init cfg = Except.error (.nameError "name warnings is not defined") := by
  simp [PanelSplit.init, h3, h1, h2]

/-- Witness for C6 at a concrete construction call. -/
theorem C6_labels_without_drop_folds_raises_witness :
    PanelSplit.init cfgC6 = Except.error (.nameError "name warnings is not defined") :=
  C6_labels_without_drop_folds_raises cfgC6 _ _ rfl rfl rfl

/-- A construction call with `drop_folds` enabled and no labels. -/
def cfgC7 : Config ℤ ℤ :=
  { train_periods := [1, 2, 3, 4, 5, 6], unique_periods := none,
    n_splits := 2, gap := 0, test_size := none, max_train_size := none,
    drop_folds := true, y := none }

/-- C7: with `drop_folds` enabled and no label series, construction never
produces a `PanelSplit` object, and whenever the fold computation of
lines 23 to 27 succeeds the constructor fails exactly with the line 34
`ValueError` naming the missing y values. -/
theorem C7_drop_folds_without_labels_fails {P L : Type} [LinearOrder P]
    [DecidableEq L] (cfg : Config P L)
    (h1 : cfg.y = none) (h2 : cfg.drop_folds = true) :
    (∀ ps, PanelSplit.init cfg ≠ Except.ok ps) ∧
    (∀ uCv, foldsStage cfg = Except.ok uCv →
      PanelSplit.init cfg = Except.error (.valueError
        "Cannot drop folds without specifying y values.")) := by
  constructor
  · intro ps hps
    unfold PanelSplit.init at hps
    cases hfs : foldsStage cfg with
    | error e => rw [hfs] at hps; simp at hps
    | ok uCv => rw [hfs] at hps; simp [h1, h2] at hps
  · intro uCv hfs
    unfold PanelSplit.init
    rw [hfs]
    simp [h1, h2]

/-- Witness for C7 at a concrete construction call: the fold computation
succeeds there and the labels error is raised. -/
theorem C7_drop_folds_without_labels_fails_witness :
    PanelSplit.init cfgC7 = Except.error (.valueError
      "Cannot drop folds without specifying y values.") :=
  (C7_drop_folds_without_labels_fails cfgC7 rfl rfl).2 _ rfl

/-- C10: the `X` and `groups` parameters of `split` and all three
parameters of `get_n_splits` have no effect: two calls differing only in
those arguments (even in the argument types) return identical results,
because the body reads only the stored period column and period-level
folds. -/
theorem C10_X_groups_params_irrelevant {P L : Type} [DecidableEq P] [DecidableEq L]
    {ξ₁ ξ₂ γ₁ γ₂ α₁ α₂ α₃ β₁ β₂ β₃ : Type} (ps : PanelSplit P)
    (X1 : Option ξ₁) (X2 : Option ξ₂) (g1 : Option γ₁) (g2 : Option γ₂)
    (y : Option (List (Option L))) (b : Bool)
    (xa : Option α₁) (ya : Option α₂) (ga : Option α₃)
    (xb : Option β₁) (yb : Option β₂) (gb : Option β₃) :
    PanelSplit.split ps X1 y g1 b = PanelSplit.split ps X2 y g2 b ∧
    PanelSplit.get_n_splits ps xa ya ga = PanelSplit.get_n_splits ps xb yb gb :=
  ⟨rfl, rfl⟩

/-- A hand-assembled splitter state whose single period-level fold has
train periods matching no row of the dataset: its train mask selects zero
rows while the test mask selects two rows with two distinct labels. -/
def psC3 : PanelSplit ℤ := ⟨[([1, 2], [3, 4])], [3, 4], true, 1, []⟩

/-- C3: the claim (and spec section 4.4) requires a fold whose train mask
selects zero rows to be dropped at construction with the count
decremented.  The construction-time pass (`split` with `init=True`) keeps
such a fold: line 71 tests `len(train_indices) == 0` on the mask array
(length 2 here) rather than the selected-row count, and `nunique` of the
empty train selection is 0, not 1, so the condition is false: the fold is
appended and `n_splits` stays 1. -/
theorem C3_zero_selected_rows_fold_kept :
    PanelSplit.split psC3 (none : Option Unit)
        (some [some (0 : ℤ), some 1]) (none : Option Unit) true =
      Except.ok ({ psC3 with all_indices := [([false, false], [true, true])] },
        [([false, false], [true, true])]) ∧
    trueCount [false, false] = 0 :=
  ⟨rfl, rfl⟩

/-- A construction call with `drop_folds` enabled, labels supplied, and
two surviving folds. -/
def cfgC2 : Config ℤ ℤ :=
  { train_periods := [1, 2, 3, 4, 5, 6], unique_periods := none,
    n_splits := 2, gap := 0, test_size := none, max_train_size := none,
    drop_folds := true,
    y := some [some 0, some 1, some 0, some 1, some 0, some 1] }

/-- C2: the claim says a later `split()` call re-evaluates the degeneracy
predicate with the label series supplied at construction and completes
normally.  The object does not store that series: `split`'s `y` parameter
defaults to `None`, so after this successful construction a plain
`split()` call reaches `y.loc[train_indices]` at line 71 with `y = None`
and raises `AttributeError` instead of returning the non-degenerate
folds. -/
theorem C2_later_split_without_labels_raises :
    (PanelSplit.init cfgC2 >>= fun ps =>
      PanelSplit.split ps (none : Option Unit)
        (none : Option (List (Option ℤ))) (none : Option Unit) false) =
    Except.error (.attributeError "NoneType object has no attribute loc") :=
  rfl

theorem splitLoop_drops_add_length {P L : Type} [DecidableEq P] [DecidableEq L]
    (df : Bool) (ap : List P) (y : Option (List (Option L))) :
    ∀ (folds : List (List P × List P)) (d : Nat) (fs : List Fold),
      splitLoop df ap y folds = Except.ok (d, fs) → d + fs.length = folds.length := by
  intro folds
  induction folds with
  | nil =>
    intro d fs h
    simp [splitLoop] at h
    obtain ⟨h1, h2⟩ := h
    subst h1; subst h2
    simp
  | cons f tl ih =>
    intro d fs h
    rw [splitLoop] at h
    cases hc : foldDropCond df y (rowMasks ap f).1 (rowMasks ap f).2 with
    | error e => rw [hc] at h; simp at h
    | ok c =>
      rw [hc] at h
      cases hr : splitLoop df ap y tl with
      | error e => rw [hr] at h; simp at h
      | ok pr =>
        obtain ⟨d2, fs2⟩ := pr
        rw [hr] at h
        have hlen := ih d2 fs2 hr
        cases c with
        | true =>
          simp at h
          obtain ⟨h1, h2⟩ := h
          subst h1; subst h2
          simp only [List.length_cons]
          omega
        | false =>
          simp at h
          obtain ⟨h1, h2⟩ := h
          subst h1; subst h2
          simp only [List.length_cons, List.length_nil]
          omega

theorem tssSplitIndices_length (n k g : Nat) (t m : Option Nat)
    (idx : List (List Nat × List Nat)) (h : tssSplitIndices n k g t m = Except.ok idx) :
    idx.length = k := by
  unfold tssSplitIndices at h
  split at h
  · simp at h
  · split at h
    · simp at h
    · split at h
      · simp at h
      · simp only [Except.ok.injEq] at h
        subst h
        simp

theorem foldsStage_length {P L : Type} [LinearOrder P] (cfg : Config P L)
    (folds : List (List P × List P)) (h : foldsStage cfg = Except.ok folds) :
    folds.length = cfg.n_splits := by
  unfold foldsStage at h
  split at h
  · simp at h
  · rename_i uniq hu
    split at h
    · simp at h
    · split at h
      · simp at h
      · rename_i idx ht
        simp only [Except.ok.injEq] at h
        subst h
        unfold split_unique_periods
        rw [List.length_map]
        exact tssSplitIndices_length _ _ _ _ _ _ ht

theorem split_eq_ok_elim {P L ξ γ : Type} [DecidableEq P] [DecidableEq L]
    (s : PanelSplit P) (X : Option ξ) (y : Option (List (Option L)))
    (g : Option γ) (b : Bool) (ps2 : PanelSplit P) (r : List Fold)
    (h : PanelSplit.split s X y g b = Except.ok (ps2, r)) :
    ∃ d, splitLoop s.drop_folds s.all_periods y s.u_periods_cv = Except.ok (d, r) ∧
      ps2 = { s with
                all_indices := r
                n_splits := if b then s.n_splits - d else s.n_splits } := by
  unfold PanelSplit.split at h
  split at h
  · simp at h
  · rename_i d fs hl
    simp only [Except.ok.injEq, Prod.mk.injEq] at h
    obtain ⟨h1, h2⟩ := h
    subst h2
    exact ⟨d, hl, h1.symm⟩

theorem init_ok_elim {P L : Type} [LinearOrder P] [DecidableEq L]
    (cfg : Config P L) (ps : PanelSplit P) (h : PanelSplit.init cfg = Except.ok ps) :
    ∃ uCv d fs, foldsStage cfg = Except.ok uCv ∧
      splitLoop cfg.drop_folds cfg.train_periods cfg.y uCv = Except.ok (d, fs) ∧
      ps = ⟨uCv, cfg.train_periods, cfg.drop_folds, cfg.n_splits - d, fs⟩ := by
  unfold PanelSplit.init at h
  split at h
  · simp at h
  · rename_i uCv hf
    split at h
    · simp at h
    · split at h
      · simp at h
      · split at h
        · simp at h
        · rename_i res hsp
          simp only [Except.ok.injEq] at h
          obtain ⟨ps2, r⟩ := res
          obtain ⟨d, hl, hrec⟩ := split_eq_ok_elim _ _ _ _ _ _ _ hsp
          refine ⟨uCv, d, r, hf, hl, ?_⟩
          subst h
          rw [hrec]
          simp

/-- C1: after a successful construction with `drop_folds` enabled, the
reported split count (`get_n_splits`, which ignores its arguments) equals
the configured fold count minus the number of construction-dropped folds,
and equals the length of the fold collection `all_indices` produced at
construction; any later successful `split` call (which runs with
`init=False` and therefore never decrements) leaves the reported count
unchanged. -/
theorem C1_split_count_invariant {P L : Type} [LinearOrder P] [DecidableEq L]
    (cfg : Config P L) (ps : PanelSplit P) (folds : List (List P × List P)) (d : Nat)
    (hdrop : cfg.drop_folds = true)
    (hinit : PanelSplit.init cfg = Except.ok ps)
    (hf : foldsStage cfg = Except.ok folds)
    (hd : constructionDrops cfg.drop_folds cfg.train_periods cfg.y folds = Except.ok d) :
    ps.n_splits + d = cfg.n_splits ∧
    ps.n_splits = ps.all_indices.length ∧
    PanelSplit.get_n_splits ps (none : Option Unit) (none : Option Unit)
      (none : Option Unit) = ps.n_splits ∧
    (∀ (y2 : Option (List (Option L))) (ps2 : PanelSplit P) (r : List Fold),
      PanelSplit.split ps (none : Option Unit) y2 (none : Option Unit) false =
        Except.ok (ps2, r) →
      PanelSplit.get_n_splits ps2 (none : Option Unit) (none : Option Unit)
        (none : Option Unit) =
      PanelSplit.get_n_splits ps (none : Option Unit) (none : Option Unit)
        (none : Option Unit)) := by
  obtain ⟨uCv, d0, fs, hf0, hl0, hps⟩ := init_ok_elim cfg ps hinit
  rw [hf0] at hf
  simp only [Except.ok.injEq] at hf
  subst hf
  unfold constructionDrops at hd
  rw [hl0] at hd
  simp only [Except.map, Except.ok.injEq] at hd
  subst hd
  have hlen := splitLoop_drops_add_length cfg.drop_folds cfg.train_periods cfg.y
    uCv d0 fs hl0
  have hfl := foldsStage_length cfg uCv hf0
  subst hps
  refine ⟨?_, ?_, rfl, ?_⟩
  · show cfg.n_splits - d0 + d0 = cfg.n_splits
    omega
  · show cfg.n_splits - d0 = fs.length
    omega
  · intro y2 ps2 r hsp
    obtain ⟨d2, hl2, hrec⟩ := split_eq_ok_elim _ _ _ _ _ _ _ hsp
    subst hrec
    simp [PanelSplit.get_n_splits]

/-- The construction call for the C1 witness: six rows with one period
each, two configured folds, and labels making the first fold degenerate
(its train labels are all 0) while the second fold survives. -/
def cfgC1 : Config ℤ ℤ :=
  { train_periods := [1, 2, 3, 4, 5, 6], unique_periods := none,
    n_splits := 2, gap := 0, test_size := none, max_train_size := none,
    drop_folds := true,
    y := some [some 0, some 0, some 1, some 0, some 1, some 0] }

/-- The period-level folds `foldsStage` computes for `cfgC1`. -/
def foldsC1 : List (List ℤ × List ℤ) := [([1, 2], [3, 4]), ([1, 2, 3, 4], [5, 6])]

/-- The object `PanelSplit.init` produces for `cfgC1`: one fold dropped,
reported count 1, one surviving row-level fold. -/
def psC1 : PanelSplit ℤ :=
  ⟨foldsC1, [1, 2, 3, 4, 5, 6], true, 1,
   [([true, true, true, true, false, false],
     [false, false, false, false, true, true])]⟩

/-- Witness for C1 at the concrete construction `cfgC1`, where exactly one
fold is dropped. -/
theorem C1_split_count_invariant_witness :
    psC1.n_splits + 1 = cfgC1.n_splits ∧
    psC1.n_splits = psC1.all_indices.length ∧
    PanelSplit.get_n_splits psC1 (none : Option Unit) (none : Option Unit)
      (none : Option Unit) = psC1.n_splits ∧
    (∀ (y2 : Option (List (Option ℤ))) (ps2 : PanelSplit ℤ) (r : List Fold),
      PanelSplit.split psC1 (none : Option Unit) y2 (none : Option Unit) false =
        Except.ok (ps2, r) →
      PanelSplit.get_n_splits ps2 (none : Option Unit) (none : Option Unit)
        (none : Option Unit) =
      PanelSplit.get_n_splits psC1 (none : Option Unit) (none : Option Unit)
        (none : Option Unit)) :=
  C1_split_count_invariant cfgC1 psC1 foldsC1 1 rfl rfl rfl rfl

/-- The fitted state an estimator carries after `estimator.fit(X_train,
y_train, sample_weight=...)` (panelsplit.py line 117).  Per the fit
contract, `fit` re-fits the one estimator object in place, replacing any
earlier state, and returns that same object. -/
structure FitRecord (ξ L W : Type) where
  X_train : List ξ
  y_train : List L
  sample_weight : Option (List W)
deriving DecidableEq, Repr

/-- Embedding of `PanelSplit._predict_fold` (panelsplit.py lines 88 to
126).  The three prediction capabilities are the opaque estimator methods;
the probability variants return a two-class table from which column 1 (the
positive class, `[:, 1]`) is taken.  An unsupported method string raises
the line 126 `ValueError`.  The returned model is the refitted estimator
object itself. -/
def predict_fold {ξ L W ρ : Type}
    (predictCap : FitRecord ξ L W → List ξ → List ρ)
    (probaCap logProbaCap : FitRecord ξ L W → List ξ → List (ρ × ρ))
    (X_train : List ξ) (y_train : List L) (X_test : List ξ)
    (prediction_method : String) (sample_weight : Option (List W)) :
    Except PyErr (List ρ × FitRecord ξ L W) :=
  let model : FitRecord ξ L W := ⟨X_train, y_train, sample_weight⟩
  if prediction_method = "predict" then
    .ok (predictCap model X_test, model)
  else if prediction_method = "predict_proba" then
    .ok ((probaCap model X_test).map Prod.snd, model)
  else if prediction_method = "predict_log_proba" then
    .ok ((logProbaCap model X_test).map Prod.snd, model)
  else
    .error (.valueError "Invalid prediction_method. Supported values are predict, predict_proba, or predict_log_proba.")

/-- Embedding of `y.loc[mask].dropna()` keeping row identity (panelsplit.py
line 178): the (row position, label) pairs of mask-selected rows whose
label is present. -/
def maskSomePairs {L : Type} (y : List (Option L)) (m : Mask) : List (Nat × L) :=
  (y.enum.filter (fun p => m.getD p.1 false)).filterMap
    (fun p => match p.2 with | some v => some (p.1, v) | none => none)

/-- Resolution of the prediction column name (panelsplit.py lines 170 to
174): an explicit `y_pred_col` wins; otherwise a label object carrying a
name attribute yields that name with the suffix `_pred` (a pandas Series
whose name is `None` renders as the string `None`, modelled by the caller
passing that string), and a bare array yields `y_pred`. -/
def y_pred_col_name (y_name : Option String) (y_pred_col : Option String) : String :=
  match y_pred_col with
  | some c => c
  | none =>
    match y_name with
    | some n => n ++ "_pred"
    | none => "y_pred"

/-- The fold loop of `PanelSplit.cross_val_predict` (panelsplit.py lines
176 to 191): per fold, drop train rows with missing labels, slice the
feature and weight rows to the surviving train rows, refit the single
estimator object, predict the test rows, and pair the predictions with the
mask-selected output-index rows.  Returns the concatenated prediction
rows, the number of folds processed, and the estimator object's final
state; `fitted_models.append(model)` at line 189 stores a reference to
that one object each time. -/
def cvPredictLoop {ξ L W ρ ι : Type}
    (predictCap : FitRecord ξ L W → List ξ → List ρ)
    (probaCap logProbaCap : FitRecord ξ L W → List ξ → List (ρ × ρ))
    (X : List ξ) (y : List (Option L)) (indices : List ι)
    (prediction_method : String) (sample_weight : Option (List W)) :
    List Fold → Except PyErr (List (ι × ρ) × Nat × Option (FitRecord ξ L W))
  | [] => .ok ([], 0, none)
  | (train_indices, test_indices) :: rest =>
    let y_train := maskSomePairs y train_indices
    let X_train := y_train.filterMap (fun p => X.get? p.1)
    let X_test := maskSel X test_indices
    let pred_rows := maskSel indices test_indices
    let sw :=
      match sample_weight with
      | some w => some (y_train.filterMap (fun p => w.get? p.1))
      | none => none
    match predict_fold predictCap probaCap logProbaCap X_train
        (y_train.map Prod.snd) X_test prediction_method sw with
    | .error e => .error e
    | .ok (vals, model) =>
      match cvPredictLoop predictCap probaCap logProbaCap X y indices
          prediction_method sample_weight rest with
      | .error e => .error e
      | .ok (preds, k, last) =>
        .ok ((pred_rows.zip vals) ++ preds, k + 1, some (last.getD model))

/-- Embedding of `PanelSplit.cross_val_predict` (panelsplit.py lines 128
to 198).  It iterates `self.split()` (all defaults, so `y=None`), runs the
fold loop, and concatenates the per-fold prediction rows; with no folds,
`pd.concat` of an empty list raises `ValueError`.  When fitted-model
retention is requested the returned list realizes the Python list of
references to the single estimator object observed after the call: the
final fitted state, repeated once per fold. -/
def PanelSplit.cross_val_predict {P L ξ W ρ ι : Type} [DecidableEq P] [DecidableEq L]
    (self : PanelSplit P)
    (predictCap : FitRecord ξ L W → List ξ → List ρ)
    (probaCap logProbaCap : FitRecord ξ L W → List ξ → List (ρ × ρ))
    (X : List ξ) (y : List (Option L)) (indices : List ι)
    (prediction_method : String) (return_fitted_models : Bool)
    (sample_weight : Option (List W)) :
    Except PyErr (List (ι × ρ) × List (FitRecord ξ L W)) :=
  match PanelSplit.split self (none : Option Unit)
      (none : Option (List (Option L))) (none : Option Unit) false with
  | .error e => .error e
  | .ok (_, folds) =>
    match cvPredictLoop predictCap probaCap logProbaCap X y indices
        prediction_method sample_weight folds with
    | .error e => .error e
    | .ok (preds, k, last) =>
      match last with
      | none => .error (.valueError "No objects to concatenate")
      | some m =>
        if return_fitted_models then .ok (preds, List.replicate k m)
        else .ok (preds, [])

/-- Embedding of `PanelSplit.cross_val_impute` (panelsplit.py lines 221 to
258).  Line 241 computes `self.split()` and never uses it; line 244
iterates `self.split()` again.  The first loop iteration evaluates
`clone(imputer)` (line 249), and `clone` is never imported (module imports
are lines 1 to 6), so any run with at least one fold raises `NameError`;
with no folds the loop body never runs and the untouched working copy is
returned with an empty imputer list (the only state the imputer list can
ever be observed in). -/
def PanelSplit.cross_val_impute {P ξ υ : Type} [DecidableEq P]
    (self : PanelSplit P) (imputer : υ) (X : List ξ)
    (return_fitted_imputers : Bool) : Except PyErr (List ξ × List Unit) :=
  match PanelSplit.split self (none : Option Unit)
      (none : Option (List (Option Unit))) (none : Option Unit) false with
  | .error e => .error e
  | .ok _ =>
    match PanelSplit.split self (none : Option Unit)
        (none : Option (List (Option Unit))) (none : Option Unit) false with
    | .error e => .error e
    | .ok (_, folds) =>
      match folds with
      | [] => .ok (X, [])
      | _ :: _ => .error (.nameError "name clone is not defined")

/-- Trivial concrete predictor capability for the C8 run: always predicts
zero. -/
def predCapC8 : FitRecord ℤ ℤ ℤ → List ℤ → List ℤ :=
  fun _ xs => xs.map (fun _ => 0)

/-- Trivial concrete probability capability for the C8 run. -/
def probaCapC8 : FitRecord ℤ ℤ ℤ → List ℤ → List (ℤ × ℤ) :=
  fun _ xs => xs.map (fun _ => (0, 0))

/-- The construction call for the C8 run: six rows, two folds, no fold
dropping. -/
def cfgC8 : Config ℤ ℤ :=
  { train_periods := [1, 2, 3, 4, 5, 6], unique_periods := none,
    n_splits := 2, gap := 0, test_size := none, max_train_size := none,
    drop_folds := false, y := none }

/-- C8: the claim says each fold fits a fresh clone of the model template,
distinct folds yield distinct fitted-model states, and the retained list
holds the per-fold fitted models.  The code never clones: line 117 refits
the one estimator object in place each fold and line 189 appends the same
reference, so on this two-fold run (fold 0 trains on rows 0 and 1, fold 1
on rows 0 to 3) the retained list holds the fold-1 state twice, and the
fold-0 fitted state (features `[10, 20]`) appears nowhere in it. -/
theorem C8_fitted_models_alias_last_fold :
    (PanelSplit.init cfgC8 >>= fun ps =>
      PanelSplit.cross_val_predict ps predCapC8 probaCapC8 probaCapC8
        [10, 20, 30, 40, 50, 60]
        [some 0, some 1, some 0, some 1, some 0, some 1]
        [100, 101, 102, 103, 104, 105] "predict" true none) =
    Except.ok ([(102, 0), (103, 0), (104, 0), (105, 0)],
      [⟨[10, 20, 30, 40], [0, 1, 0, 1], none⟩,
       ⟨[10, 20, 30, 40], [0, 1, 0, 1], none⟩]) ∧
    (⟨[10, 20, 30, 40], [0, 1, 0, 1], none⟩ : FitRecord ℤ ℤ ℤ) ≠
      ⟨[10, 20], [0, 1], none⟩ := by
  exact ⟨rfl, by decide⟩

/-- The construction call for the C9 run: six rows, two folds, no fold
dropping. -/
def cfgC9 : Config ℤ ℤ :=
  { train_periods := [1, 2, 3, 4, 5, 6], unique_periods := none,
    n_splits := 2, gap := 0, test_size := none, max_train_size := none,
    drop_folds := false, y := none }

/-- C9: the claim says the imputation operation returns normally with the
progressively updated working copy.  On this construction the fold list is
nonempty, so the first loop iteration evaluates `clone(imputer)` and the
call raises `NameError` (the module never imports `clone`); no table is
returned. -/
theorem C9_impute_raises_clone_name_error :
    (PanelSplit.init cfgC9 >>= fun ps =>
      PanelSplit.cross_val_impute ps (0 : ℤ) [10, 20, 30, 40, 50, 60] false) =
    Except.error (.nameError "name clone is not defined") :=
  rfl
